import Mathlib

/-!
Verification of the node-liveness core (`pkg/kv/kvserver/liveness/livenesspb`):
the liveness record model (`IsLive`, `IsDead`, `Compare`), the membership
transition validator (`ValidateTransition`), and the liveness snapshot
(`IsLiveMap`). Machine integers of the source (int32 node ids, int64 epochs
and wall times) are modelled as `Int`; the operations only compare them or
add a duration, so two's-complement wraparound never enters the properties
considered here.
-/

namespace Livenesspb

/-- Modelled from the spec: the hybrid logical-clock timestamp type
(`hlc.Timestamp`) is not part of the provided source; the spec describes it as
a "logical+physical composite" timestamp compared by its causal ordering:
wall time first, logical component as tie-break. -/
structure Timestamp where
  WallTime : Int
  Logical : Int
deriving DecidableEq, Repr

/-- Modelled from the spec: strict causal ordering on timestamps
(`hlc.Timestamp.Less`): lexicographic on (wall time, logical). -/
def Timestamp.Less (a b : Timestamp) : Bool :=
  decide (a.WallTime < b.WallTime ∨ (a.WallTime = b.WallTime ∧ a.Logical < b.Logical))

/-- Modelled from the spec: `hlc.Timestamp.AddDuration` shifts the wall-time
component by a duration (in nanoseconds); "Expiration + threshold". -/
def Timestamp.AddDuration (a : Timestamp) (d : Int) : Timestamp :=
  { WallTime := a.WallTime + d, Logical := a.Logical }

/-- Modelled from the spec: the legacy wire form of a timestamp
(`hlc.LegacyTimestamp`), carrying the same wall-time and logical components. -/
structure LegacyTimestamp where
  WallTime : Int
  Logical : Int
deriving DecidableEq, Repr

/-- Modelled from the spec: conversion `LegacyTimestamp.ToTimestamp`, which
preserves the wall-time and logical components. -/
def LegacyTimestamp.ToTimestamp (t : LegacyTimestamp) : Timestamp :=
  { WallTime := t.WallTime, Logical := t.Logical }

/-- Modelled from the spec: causal equality of legacy timestamps
(`LegacyTimestamp.EqOrdering`): equal wall time and equal logical component. -/
def LegacyTimestamp.EqOrdering (a b : LegacyTimestamp) : Bool :=
  decide (a.WallTime = b.WallTime ∧ a.Logical = b.Logical)

/-- Modelled from the spec: strict causal ordering on legacy timestamps
(`LegacyTimestamp.Less`): lexicographic on (wall time, logical). -/
def LegacyTimestamp.Less (a b : LegacyTimestamp) : Bool :=
  decide (a.WallTime < b.WallTime ∨ (a.WallTime = b.WallTime ∧ a.Logical < b.Logical))

/-- The closed membership enumeration of `livenesspb.MembershipStatus`:
`ACTIVE`, `DECOMMISSIONING`, `DECOMMISSIONED`. `active` is the zero value of
the Go enum. -/
inductive MembershipStatus where
  | active
  | decommissioning
  | decommissioned
deriving DecidableEq, Repr

/-- `MembershipStatus.Decommissioning` from liveness.go: shorthand for
`c == MembershipStatus_DECOMMISSIONING`. -/
def MembershipStatus.Decommissioning (c : MembershipStatus) : Bool :=
  decide (c = MembershipStatus.decommissioning)

/-- `MembershipStatus.Decommissioned` from liveness.go: shorthand for
`c == MembershipStatus_DECOMMISSIONED`. -/
def MembershipStatus.Decommissioned (c : MembershipStatus) : Bool :=
  decide (c = MembershipStatus.decommissioned)

/-- `MembershipStatus.Active` from liveness.go: shorthand for
`c == MembershipStatus_ACTIVE`. -/
def MembershipStatus.Active (c : MembershipStatus) : Bool :=
  decide (c = MembershipStatus.active)

/-- The `livenesspb.Liveness` record: node id, epoch, expiration (a legacy
timestamp on the wire), draining flag and membership status. -/
structure Liveness where
  NodeID : Int
  Epoch : Int
  Expiration : LegacyTimestamp
  Draining : Bool
  Membership : MembershipStatus
deriving DecidableEq, Repr

/-- The Go zero value `Liveness{}`: every field zero-valued
(`active` is the zero value of the membership enum). -/
def emptyLiveness : Liveness :=
  { NodeID := 0, Epoch := 0, Expiration := ⟨0, 0⟩, Draining := false
    Membership := MembershipStatus.active }

/-- `Liveness.IsLive` from liveness.go:
`return now.Less(l.Expiration.ToTimestamp())`. -/
def Liveness.IsLive (l : Liveness) (now : Timestamp) : Bool :=
  now.Less l.Expiration.ToTimestamp

/-- `Liveness.IsDead` from liveness.go:
`expiration := l.Expiration.ToTimestamp().AddDuration(threshold);
return !now.Less(expiration)`. -/
def Liveness.IsDead (l : Liveness) (now : Timestamp) (threshold : Int) : Bool :=
  let expiration := (l.Expiration.ToTimestamp).AddDuration threshold
  !(now.Less expiration)

/-- `Liveness.Compare` from liveness.go: compare `Epoch`, and if no change
there, `Expiration`. -/
def Liveness.Compare (l : Liveness) (o : Liveness) : Int :=
  if l.Epoch ≠ o.Epoch then
    if l.Epoch < o.Epoch then -1 else 1
  else if !(l.Expiration.EqOrdering o.Expiration) then
    if l.Expiration.Less o.Expiration then -1 else 1
  else 0

/-- The two error kinds produced by `ValidateTransition`: an assertion
failure (`errors.AssertionFailedf`) and a gRPC failed-precondition status
error carrying the node id and its current membership status. -/
inductive TransitionError where
  | assertionFailed (msg : String)
  | failedPrecondition (nodeID : Int) (current : MembershipStatus)
deriving DecidableEq, Repr

/-- `livenesspb.ValidateTransition` from liveness.go, returning the
`(changed, error)` pair with `error` as an `Option TransitionError`. -/
def ValidateTransition (old : Liveness) (newStatus : MembershipStatus) :
    Bool × Option TransitionError :=
  if old = emptyLiveness then
    (false, some (TransitionError.assertionFailed
      "invalid old liveness record; found to be empty"))
  else if old.Membership = newStatus then
    (false, none)
  else if old.Membership.Decommissioned && newStatus.Decommissioning then
    (false, none)
  else if newStatus.Active && !(old.Membership.Decommissioning) then
    (false, some (TransitionError.failedPrecondition old.NodeID old.Membership))
  else if newStatus.Decommissioned && !(old.Membership.Decommissioning) then
    (false, some (TransitionError.failedPrecondition old.NodeID old.Membership))
  else
    (true, none)

/-- `livenesspb.IsLiveMapEntry`: a liveness record paired with the derived
`IsLive` boolean. -/
structure IsLiveMapEntry where
  liveness : Liveness
  isLive : Bool
deriving DecidableEq, Repr

/-- Modelled from the spec: `BuildIsLiveMap` is not in the provided source
(only the `IsLiveMap` type alias is); the spec says: for each record, compute
`IsLive(now)` and store `{record, isLive}` keyed by node id. The map is
modelled as an association list from node id to entry. -/
def BuildIsLiveMap (records : List (Int × Liveness)) (now : Timestamp) :
    List (Int × IsLiveMapEntry) :=
  records.map (fun p => (p.1, { liveness := p.2, isLive := p.2.IsLive now }))

/-- Helper: `Compare` is the lexicographic three-way comparison on the key
`(Epoch, Expiration.WallTime, Expiration.Logical)`. -/
theorem Compare_char (a b : Liveness) :
    a.Compare b =
      (if a.Epoch < b.Epoch then (-1 : Int)
       else if b.Epoch < a.Epoch then 1
       else if a.Expiration.WallTime < b.Expiration.WallTime then -1
       else if b.Expiration.WallTime < a.Expiration.WallTime then 1
       else if a.Expiration.Logical < b.Expiration.Logical then -1
       else if b.Expiration.Logical < a.Expiration.Logical then 1
       else 0) := by
  unfold Liveness.Compare LegacyTimestamp.EqOrdering LegacyTimestamp.Less
  split_ifs <;> simp_all <;> omega

/-- Helper: `Compare a b ≤ 0` says exactly that the key
`(Epoch, Expiration.WallTime, Expiration.Logical)` of `a` is lexicographically
at most that of `b`. -/
theorem Compare_le_iff (a b : Liveness) :
    a.Compare b ≤ 0 ↔
      (a.Epoch < b.Epoch ∨
        (a.Epoch = b.Epoch ∧
          (a.Expiration.WallTime < b.Expiration.WallTime ∨
            (a.Expiration.WallTime = b.Expiration.WallTime ∧
              a.Expiration.Logical ≤ b.Expiration.Logical)))) := by
  rw [Compare_char]
  split_ifs <;> omega

/-- C1. Epoch dominance of `Compare`: whenever `a.Epoch < b.Epoch`,
`Compare(a, b) = -1` and `Compare(b, a) = 1`, regardless of the records'
`Expiration` values or any other field. -/
theorem compare_epoch_dominance (a b : Liveness) (h : a.Epoch < b.Epoch) :
    a.Compare b = -1 ∧ b.Compare a = 1 := by
  rw [Compare_char, Compare_char]
  constructor
  · rw [if_pos h]
  · rw [if_neg (by omega), if_pos h]

/-- Witness for C1 at a concrete pair of records that differ in every other
field. -/
theorem compare_epoch_dominance_witness :
    (Liveness.mk 1 2 ⟨900, 5⟩ true MembershipStatus.decommissioning).Compare
        (Liveness.mk 7 3 ⟨100, 0⟩ false MembershipStatus.active) = -1 ∧
      (Liveness.mk 7 3 ⟨100, 0⟩ false MembershipStatus.active).Compare
        (Liveness.mk 1 2 ⟨900, 5⟩ true MembershipStatus.decommissioning) = 1 :=
  compare_epoch_dominance
    (Liveness.mk 1 2 ⟨900, 5⟩ true MembershipStatus.decommissioning)
    (Liveness.mk 7 3 ⟨100, 0⟩ false MembershipStatus.active) (by decide)

/-- C2. `Compare` is a total order up to equivalence: `Compare(a, a) = 0`;
`Compare(a, b) = -Compare(b, a)`; `Compare(a, b) ≤ 0` and `Compare(b, c) ≤ 0`
imply `Compare(a, c) ≤ 0`; and `Compare(a, b) = 0` whenever `a` and `b` agree
on `Epoch` and `Expiration`, even if they differ in `NodeID`, `Draining` or
`Membership`. -/
theorem compare_total_order (a b c : Liveness) :
    a.Compare a = 0 ∧
      a.Compare b = -(b.Compare a) ∧
      (a.Compare b ≤ 0 → b.Compare c ≤ 0 → a.Compare c ≤ 0) ∧
      (a.Epoch = b.Epoch → a.Expiration = b.Expiration → a.Compare b = 0) := by
  refine ⟨?_, ?_, ?_, ?_⟩
  · rw [Compare_char]; split_ifs <;> omega
  · rw [Compare_char, Compare_char]; split_ifs <;> omega
  · rw [Compare_le_iff, Compare_le_iff, Compare_le_iff]
    omega
  · intro he hx
    rw [Compare_char, he, hx]
    split_ifs <;> omega

/-- Witness for C2: the transitivity conjunct applied at three concrete
records whose pairwise comparisons are nonpositive. -/
theorem compare_total_order_witness :
    (Liveness.mk 1 2 ⟨100, 0⟩ false MembershipStatus.active).Compare
      (Liveness.mk 1 2 ⟨100, 7⟩ true MembershipStatus.active) ≤ 0 :=
  ((compare_total_order
      (Liveness.mk 1 2 ⟨100, 0⟩ false MembershipStatus.active)
      (Liveness.mk 1 2 ⟨100, 3⟩ false MembershipStatus.decommissioning)
      (Liveness.mk 1 2 ⟨100, 7⟩ true MembershipStatus.active)).2.2.1
    (by decide) (by decide))

/-- Helper: a record whose membership is not `active` is not the zero-valued
record, whose membership is the zero enum value `active`. -/
theorem ne_empty_of_membership (old : Liveness)
    (h : old.Membership ≠ MembershipStatus.active) : old ≠ emptyLiveness := by
  intro he
  rw [he] at h
  exact h rfl

/-- C3. Recommission gating: a `Decommissioned` record cannot move to
`Active` — the call returns `changed = false` with a failed-precondition
error carrying the node id and the current membership status — while a
`Decommissioning` record moving to `Active` yields `(true, nil)`. -/
theorem validate_recommission_gating (old : Liveness) :
    (old.Membership = MembershipStatus.decommissioned →
      ValidateTransition old MembershipStatus.active =
        (false, some (TransitionError.failedPrecondition old.NodeID
          MembershipStatus.decommissioned))) ∧
    (old.Membership = MembershipStatus.decommissioning →
      ValidateTransition old MembershipStatus.active = (true, none)) := by
  constructor <;> intro h
  · have hne : old ≠ emptyLiveness :=
      ne_empty_of_membership old (by rw [h]; intro hc; exact absurd hc (by decide))
    simp only [ValidateTransition, if_neg hne, h]
    rfl
  · have hne : old ≠ emptyLiveness :=
      ne_empty_of_membership old (by rw [h]; intro hc; exact absurd hc (by decide))
    simp only [ValidateTransition, if_neg hne, h]
    rfl

/-- Witness for C3 at a concrete decommissioned record and a concrete
decommissioning record. -/
theorem validate_recommission_gating_witness :
    ValidateTransition (Liveness.mk 4 1 ⟨100, 0⟩ false
        MembershipStatus.decommissioned) MembershipStatus.active =
      (false, some (TransitionError.failedPrecondition 4
        MembershipStatus.decommissioned)) ∧
    ValidateTransition (Liveness.mk 5 1 ⟨100, 0⟩ false
        MembershipStatus.decommissioning) MembershipStatus.active =
      (true, none) :=
  ⟨(validate_recommission_gating
      (Liveness.mk 4 1 ⟨100, 0⟩ false MembershipStatus.decommissioned)).1 rfl,
   (validate_recommission_gating
      (Liveness.mk 5 1 ⟨100, 0⟩ false MembershipStatus.decommissioning)).2 rfl⟩

/-- C4 counterexample: the claim asserts that `ValidateTransition(old,
Decommissioned)` with `old.Membership` not `Decommissioning` always returns a
failed-precondition error, but with `old.Membership = Decommissioned` (which
is not `Decommissioning`) the same-status no-op branch fires first and the
call returns `(false, nil)` with no error at all. -/
theorem validate_skip_level_counterexample :
    ValidateTransition (Liveness.mk 9 1 ⟨100, 0⟩ false
        MembershipStatus.decommissioned) MembershipStatus.decommissioned =
      (false, none) := by decide

/-- C4 amended. Forward decommission path and skip-level rejection: for every
non-empty old record, `ValidateTransition(old, Decommissioning)` with
`old.Membership = Active` returns `(true, nil)`; `ValidateTransition(old,
Decommissioned)` with `old.Membership = Decommissioning` returns
`(true, nil)`; `ValidateTransition(old, Decommissioned)` with
`old.Membership = Active` returns `changed = false` with a
failed-precondition error; and `ValidateTransition(old, Decommissioned)`
with `old.Membership = Decommissioned` is the same-status no-op
`(false, nil)`. -/
theorem validate_forward_path (old : Liveness) (hne : old ≠ emptyLiveness) :
    (old.Membership = MembershipStatus.active →
      ValidateTransition old MembershipStatus.decommissioning = (true, none)) ∧
    (old.Membership = MembershipStatus.decommissioning →
      ValidateTransition old MembershipStatus.decommissioned = (true, none)) ∧
    (old.Membership = MembershipStatus.active →
      ValidateTransition old MembershipStatus.decommissioned =
        (false, some (TransitionError.failedPrecondition old.NodeID
          MembershipStatus.active))) ∧
    (old.Membership = MembershipStatus.decommissioned →
      ValidateTransition old MembershipStatus.decommissioned = (false, none)) := by
  refine ⟨?_, ?_, ?_, ?_⟩ <;> intro h <;>
    simp only [ValidateTransition, if_neg hne, h] <;> rfl

/-- Witness for C4 at concrete records in each membership state. -/
theorem validate_forward_path_witness :
    ValidateTransition (Liveness.mk 2 1 ⟨100, 0⟩ false
        MembershipStatus.active) MembershipStatus.decommissioning =
      (true, none) ∧
    ValidateTransition (Liveness.mk 2 1 ⟨100, 0⟩ false
        MembershipStatus.active) MembershipStatus.decommissioned =
      (false, some (TransitionError.failedPrecondition 2
        MembershipStatus.active)) :=
  ⟨(validate_forward_path
      (Liveness.mk 2 1 ⟨100, 0⟩ false MembershipStatus.active)
      (by decide)).1 rfl,
   (validate_forward_path
      (Liveness.mk 2 1 ⟨100, 0⟩ false MembershipStatus.active)
      (by decide)).2.2.1 rfl⟩

/-- C5. No-op transitions: for every non-empty old record,
`ValidateTransition(old, old.Membership)` returns `(false, nil)`, and a
`Decommissioned` record asked to move to `Decommissioning` is also absorbed
as the no-op `(false, nil)`. -/
theorem validate_noop (old : Liveness) (hne : old ≠ emptyLiveness) :
    ValidateTransition old old.Membership = (false, none) ∧
    (old.Membership = MembershipStatus.decommissioned →
      ValidateTransition old MembershipStatus.decommissioning =
        (false, none)) := by
  constructor
  · rw [ValidateTransition, if_neg hne, if_pos rfl]
  · intro h
    simp only [ValidateTransition, if_neg hne, h]
    rfl

/-- Witness for C5 at a concrete draining active record and a concrete
decommissioned record. -/
theorem validate_noop_witness :
    ValidateTransition (Liveness.mk 3 2 ⟨50, 1⟩ true MembershipStatus.active)
        (Liveness.mk 3 2 ⟨50, 1⟩ true MembershipStatus.active).Membership =
      (false, none) ∧
    ValidateTransition (Liveness.mk 6 1 ⟨50, 1⟩ false
        MembershipStatus.decommissioned) MembershipStatus.decommissioning =
      (false, none) :=
  ⟨(validate_noop (Liveness.mk 3 2 ⟨50, 1⟩ true MembershipStatus.active)
      (by decide)).1,
   (validate_noop (Liveness.mk 6 1 ⟨50, 1⟩ false
      MembershipStatus.decommissioned) (by decide)).2 rfl⟩

/-- C6. `IsLive` semantics: `IsLive(now)` is true iff `now` is strictly
earlier than `Expiration` in the causal order (wall time first, logical
tie-break); in particular, at `now = Expiration` the record is no longer
live. -/
theorem isLive_iff (l : Liveness) (now : Timestamp) :
    (l.IsLive now = true ↔
      (now.WallTime < l.Expiration.WallTime ∨
        (now.WallTime = l.Expiration.WallTime ∧
          now.Logical < l.Expiration.Logical))) ∧
    l.IsLive l.Expiration.ToTimestamp = false := by
  constructor
  · simp [Liveness.IsLive, Timestamp.Less, LegacyTimestamp.ToTimestamp]
  · simp [Liveness.IsLive, Timestamp.Less, LegacyTimestamp.ToTimestamp]

/-- C7. Grace window between live and dead: with `Expiration = E` and
threshold `T > 0`, `IsDead(now, T)` is true iff `now` is not causally earlier
than `E + T`, and there exists a timestamp `now` with `E ≤ now < E + T`
at which `IsLive(now)` and `IsDead(now, T)` are both false — `IsDead` is not
the logical negation of `IsLive`. -/
theorem isDead_grace_window (l : Liveness) (T : Int) (hT : 0 < T) :
    (∀ now : Timestamp,
      l.IsDead now T = true ↔
        ¬(now.WallTime < l.Expiration.WallTime + T ∨
          (now.WallTime = l.Expiration.WallTime + T ∧
            now.Logical < l.Expiration.Logical))) ∧
    (∃ now : Timestamp,
      now.Less l.Expiration.ToTimestamp = false ∧
      now.Less ((l.Expiration.ToTimestamp).AddDuration T) = true ∧
      l.IsLive now = false ∧
      l.IsDead now T = false) := by
  constructor
  · intro now
    simp only [Liveness.IsDead, Timestamp.Less, Timestamp.AddDuration,
      LegacyTimestamp.ToTimestamp, Bool.not_eq_true', decide_eq_false_iff_not,
      not_or, not_and, not_lt]
  · refine ⟨l.Expiration.ToTimestamp, ?_, ?_, ?_, ?_⟩ <;>
      simp [Liveness.IsLive, Liveness.IsDead, Timestamp.Less,
        Timestamp.AddDuration, LegacyTimestamp.ToTimestamp] <;>
      omega

/-- Witness for C7 at a concrete record and the concrete threshold 5. -/
theorem isDead_grace_window_witness :
    (0 : Int) < 5 ∧
    (∃ now : Timestamp,
      now.Less (Liveness.mk 1 1 ⟨100, 2⟩ false
        MembershipStatus.active).Expiration.ToTimestamp = false ∧
      now.Less (((Liveness.mk 1 1 ⟨100, 2⟩ false
        MembershipStatus.active).Expiration.ToTimestamp).AddDuration 5) = true ∧
      (Liveness.mk 1 1 ⟨100, 2⟩ false MembershipStatus.active).IsLive now = false ∧
      (Liveness.mk 1 1 ⟨100, 2⟩ false MembershipStatus.active).IsDead now 5 = false) :=
  ⟨by decide,
   (isDead_grace_window
      (Liveness.mk 1 1 ⟨100, 2⟩ false MembershipStatus.active) 5 (by decide)).2⟩

/-- C8. Empty-record guard: for the all-zero old record, every proposed new
status yields `changed = false` together with an assertion-failure error,
an error kind distinct from the failed-precondition rejection of an illegal
transition. -/
theorem validate_empty_guard :
    ∀ s : MembershipStatus,
      ValidateTransition emptyLiveness s =
        (false, some (TransitionError.assertionFailed
          "invalid old liveness record; found to be empty")) ∧
      ∀ (n : Int) (c : MembershipStatus),
        TransitionError.assertionFailed
            "invalid old liveness record; found to be empty" ≠
          TransitionError.failedPrecondition n c := by
  intro s
  constructor
  · rw [ValidateTransition, if_pos rfl]
  · intro n c hc
    exact TransitionError.noConfusion hc

/-- C9. Snapshot determinism: `BuildIsLiveMap` is a pure function — two calls
on equal inputs return identical association lists — and its output pairs
each node id with its record together with `IsLive(now)` computed from that
record. -/
theorem buildIsLiveMap_deterministic (records1 records2 : List (Int × Liveness))
    (now : Timestamp) (h : records1 = records2) :
    BuildIsLiveMap records1 now = BuildIsLiveMap records2 now ∧
    ∀ (n : Int) (e : IsLiveMapEntry),
      (n, e) ∈ BuildIsLiveMap records1 now ↔
        ∃ r : Liveness, (n, r) ∈ records1 ∧
          e = { liveness := r, isLive := r.IsLive now } := by
  constructor
  · rw [h]
  · intro n e
    constructor
    · intro hmem
      rcases List.mem_map.mp hmem with ⟨p, hp, hpe⟩
      refine ⟨p.2, ?_, ?_⟩
      · have h1 : p.1 = n := congrArg Prod.fst hpe
        rw [← h1]
        exact hp
      · exact (congrArg Prod.snd hpe).symm
    · rintro ⟨r, hr, he⟩
      rw [he]
      exact List.mem_map.mpr ⟨(n, r), hr, rfl⟩

/-- Witness for C9 at a concrete two-node input. -/
theorem buildIsLiveMap_deterministic_witness :
    BuildIsLiveMap
        [(1, Liveness.mk 1 1 ⟨100, 0⟩ false MembershipStatus.active),
         (2, Liveness.mk 2 3 ⟨5, 0⟩ true MembershipStatus.decommissioning)]
        (Timestamp.mk 50 0) =
      BuildIsLiveMap
        [(1, Liveness.mk 1 1 ⟨100, 0⟩ false MembershipStatus.active),
         (2, Liveness.mk 2 3 ⟨5, 0⟩ true MembershipStatus.decommissioning)]
        (Timestamp.mk 50 0) :=
  (buildIsLiveMap_deterministic
    [(1, Liveness.mk 1 1 ⟨100, 0⟩ false MembershipStatus.active),
     (2, Liveness.mk 2 3 ⟨5, 0⟩ true MembershipStatus.decommissioning)]
    [(1, Liveness.mk 1 1 ⟨100, 0⟩ false MembershipStatus.active),
     (2, Liveness.mk 2 3 ⟨5, 0⟩ true MembershipStatus.decommissioning)]
    (Timestamp.mk 50 0) rfl).1

/-- C10. The emptiness guard is whole-struct equality with the zero record:
the assertion failure fires exactly when `NodeID`, `Epoch`, `Expiration`,
`Draining` and `Membership` are all zero-valued (so a freshly-joined node's
record that is zero in every field, with `Epoch = 0` and `Membership =
Active`, is itself the empty record and rejected), while a record differing
from zero in one field — `Epoch = 1`, or a non-zero `Expiration` — passes the
emptiness check for every proposed status. -/
theorem validate_empty_is_struct_equality :
    ∀ (r : Liveness) (s : MembershipStatus),
      ((∃ msg : String,
          (ValidateTransition r s).2 = some (TransitionError.assertionFailed msg)) ↔
        (r.NodeID = 0 ∧ r.Epoch = 0 ∧ r.Expiration = ⟨0, 0⟩ ∧
          r.Draining = false ∧ r.Membership = MembershipStatus.active)) ∧
      (∀ msg : String,
        (ValidateTransition (Liveness.mk 0 1 ⟨0, 0⟩ false
            MembershipStatus.active) s).2 ≠
          some (TransitionError.assertionFailed msg)) ∧
      (∀ msg : String,
        (ValidateTransition (Liveness.mk 0 0 ⟨100, 0⟩ false
            MembershipStatus.active) s).2 ≠
          some (TransitionError.assertionFailed msg)) := by
  intro r s
  have hkey : ∀ (r2 : Liveness), r2 ≠ emptyLiveness →
      ∀ msg : String,
        (ValidateTransition r2 s).2 ≠ some (TransitionError.assertionFailed msg) := by
    intro r2 hne msg
    rw [ValidateTransition, if_neg hne]
    split_ifs <;> simp
  refine ⟨?_, ?_, ?_⟩
  · constructor
    · intro ⟨msg, hmsg⟩
      by_cases hr : r = emptyLiveness
      · rw [hr]
        exact ⟨rfl, rfl, rfl, rfl, rfl⟩
      · exact absurd hmsg (hkey r hr msg)
    · intro ⟨h1, h2, h3, h4, h5⟩
      have hr : r = emptyLiveness := by
        cases r
        simp_all [emptyLiveness]
      rw [hr, ValidateTransition, if_pos rfl]
      exact ⟨"invalid old liveness record; found to be empty", rfl⟩
  · exact hkey (Liveness.mk 0 1 ⟨0, 0⟩ false MembershipStatus.active) (by decide)
  · exact hkey (Liveness.mk 0 0 ⟨100, 0⟩ false MembershipStatus.active) (by decide)

end Livenesspb
